import Mathlib

/-!
Shallow embedding of Pimoroni/enviroplus/examples/monitor.py.

Python floats are modelled as rationals with exact arithmetic; fallible
Python operations (dict KeyError, min/max of an empty list, unbound local
reads, particulate sensor timeouts) are modelled with Option.  Wall-clock
times are rationals.  Text drawn on the canvas is modelled structurally by
its components (truncated variable name, exact value, unit) rather than as
a formatted string.
-/

/-- Python int() truncation toward zero of a float. -/
def pyTrunc (q : ℚ) : ℤ := if 0 ≤ q then ⌊q⌋ else ⌈q⌉

/-- Python min of a list; the empty list raises (none). -/
def pyMin : List ℚ → Option ℚ
  | [] => none
  | x :: xs => some (xs.foldl min x)

/-- Python max of a list; the empty list raises (none). -/
def pyMax : List ℚ → Option ℚ
  | [] => none
  | x :: xs => some (xs.foldl max x)

/-- colorsys.hsv_to_rgb, translated statement by statement (floats as rationals). -/
def hsv_to_rgb (h s v : ℚ) : ℚ × ℚ × ℚ :=
  if s = 0 then (v, v, v)
  else
    let i0 : ℤ := pyTrunc (h * 6)
    let f : ℚ := h * 6 - (i0 : ℚ)
    let p := v * (1 - s)
    let q := v * (1 - s * f)
    let t := v * (1 - s * (1 - f))
    let i := i0 % 6
    if i = 0 then (v, t, p)
    else if i = 1 then (q, v, p)
    else if i = 2 then (p, v, t)
    else if i = 3 then (p, q, v)
    else if i = 4 then (t, p, v)
    else (v, p, q)

/-- setup_variables (monitor.py lines 77-80): the ten variable names. -/
def variablesList : List String :=
  ["temperature", "pressure", "humidity", "light",
   "oxidised", "reduced", "nh3", "pm1", "pm25", "pm10"]

/-- setup_variables lines 81-84: the unit strings. -/
def units : List String :=
  ["C", "hPa", "%", "Lux", "kO", "kO", "kO", "ug/m3", "ug/m3", "ug/m3"]

/-- setup_variables lines 86-97: the warning limits (1013.25 = 4053/4). -/
def limits : List (List ℚ) :=
  [[4, 18, 28, 35],
   [250, 650, 4053/4, 1015],
   [20, 30, 60, 70],
   [-1, -1, 30000, 100000],
   [-1, -1, 40, 50],
   [-1, -1, 450, 550],
   [-1, -1, 200, 300],
   [-1, -1, 50, 100],
   [-1, -1, 50, 100],
   [-1, -1, 50, 100]]

/-- setup_variables lines 99-105: the five-colour RGB palette. -/
def palette : List (ℤ × ℤ × ℤ) :=
  [(0, 0, 255), (0, 255, 255), (0, 255, 0), (255, 255, 0), (255, 0, 0)]

/-- The values dict: per-variable history buffers, as an association list. -/
abbrev Values := List (String × List ℚ)

/-- setup_variables line 106: values = {}.  The dict starts empty; no
per-variable buffer is ever pre-filled anywhere in the source. -/
def setup_values : Values := []

/-- Python dict assignment d[k] = v: replace the binding if the key is
present, append it otherwise. -/
def dictSet (m : Values) (k : String) (v : List ℚ) : Values :=
  match m with
  | [] => [(k, v)]
  | (k2, v2) :: rest => if k = k2 then (k, v) :: rest else (k2, v2) :: dictSet rest k v

/-- display_text lines 130-132: min-max normalization of the buffer,
colours = [(v - vmin + 1) / (vmax - vmin + 1) for v in buf]. -/
def normalize_series (buf : List ℚ) : Option (List ℚ) :=
  match pyMin buf, pyMax buf with
  | some vmin, some vmax => some (buf.map (fun v => (v - vmin + 1) / (vmax - vmin + 1)))
  | _, _ => none

/-- One PIL draw call.  Colours are integer RGB triples, coordinates are
rationals; a text draw is modelled structurally by its components. -/
inductive DrawOp
  | rect (x0 y0 x1 y1 : ℚ) (colour : ℤ × ℤ × ℤ)
  | text (x y : ℚ) (name : String) (data : ℚ) (unit : String) (colour : ℤ × ℤ × ℤ)
deriving DecidableEq

/-- display_text (lines 126-148): append data to the variable's buffer
(KeyError = none on a missing key), normalize, and compose the
single-variable page frame that is pushed to the display. -/
def display_text (W H top : ℚ) (values : Values) (varName : String) (data : ℚ)
    (unit : String) : Option (Values × List DrawOp) :=
  match values.lookup varName with
  | none => none
  | some buf =>
    let buf2 := buf.drop 1 ++ [data]
    let values2 := dictSet values varName buf2
    match normalize_series buf2 with
    | none => none
    | some colours =>
      let frame :=
        DrawOp.rect 0 0 W H (255, 255, 255) ::
        (colours.enum.flatMap (fun ic =>
          let i : ℚ := (ic.1 : ℚ)
          let c := ic.2
          let hue := (1 - c) * (3/5)
          let rgb := hsv_to_rgb hue 1 1
          let r := pyTrunc (rgb.1 * 255)
          let g := pyTrunc (rgb.2.1 * 255)
          let b := pyTrunc (rgb.2.2 * 255)
          let line_y := H - (top + c * (H - top)) + top
          [DrawOp.rect i top (i + 1) H (r, g, b),
           DrawOp.rect i line_y (i + 1) (line_y + 1) (0, 0, 0)])) ++
        [DrawOp.text 0 0 (varName.take 4) data unit (0, 0, 0)]
      some (values2, frame)

/-- The severity scan of display_everything lines 174-177: rgb starts at
palette[0]; for each threshold index j with data_value > lim[j] the palette
index is replaced by j + 1; the final index is returned. -/
def classifyIdx (v : ℚ) (lim : List ℚ) : Nat :=
  lim.enum.foldl (fun acc p => if p.2 < v then p.1 + 1 else acc) 0

/-- The per-cell loop of display_everything (lines 166-178) over the
enumerated variable list.  Grid geometry: column_count = 2 and
row_count = len(variables)/2 = 5 (true division in the source), so
x uses WIDTH // 2 and i // 5 and y uses HEIGHT / 5 and i % 5. -/
def grid_cells (W H xo yo : ℚ) (values : Values) : List (Nat × String) → Option (List DrawOp)
  | [] => some []
  | (i, varName) :: rest =>
    match values.lookup varName with
    | none => none
    | some buf =>
      match buf.getLast? with
      | none => none
      | some data =>
        match units.get? i, limits.get? i with
        | some unit, some lim =>
          let x := xo + ((⌊W / 2⌋ : ℚ) * (⌊(i : ℚ) / 5⌋ : ℚ))
          let y := yo + ((H / 5) * ((i : ℚ) - 5 * (⌊(i : ℚ) / 5⌋ : ℚ)))
          let rgb := palette.getD (classifyIdx data lim) (0, 0, 255)
          match grid_cells W H xo yo values rest with
          | none => none
          | some ops => some (DrawOp.text x y (varName.take 4) data unit rgb :: ops)
        | _, _ => none

/-- display_everything (lines 162-179): black background, then the ten
grid cells; the composed frame is pushed to the display.  The function
only reads the values dict and never writes it. -/
def display_everything (W H xo yo : ℚ) (values : Values) : Option (List DrawOp) :=
  match grid_cells W H xo yo values variablesList.enum with
  | none => none
  | some cells => some (DrawOp.rect 0 0 W H (0, 0, 0) :: cells)

/-- An observable event of one handler call: a sensor acquisition, an info
log line, the timeout warning, or a frame push to the display. -/
inductive Ev
  | read (sensor : String)
  | logInfo (name : String) (data : ℚ) (unit : String)
  | logWarn
  | push (frame : List DrawOp)
deriving DecidableEq

/-- The shape of an event with the pushed frame contents erased. -/
inductive EvTag
  | read (sensor : String)
  | logInfo (name : String) (data : ℚ) (unit : String)
  | logWarn
  | push
deriving DecidableEq

/-- Erase frame contents, keeping the event shape and order. -/
def tagOf : Ev → EvTag
  | .read s => .read s
  | .logInfo n d u => .logInfo n d u
  | .logWarn => .logWarn
  | .push _ => .push

/-- Whether an event is a frame push. -/
def isPush : Ev → Bool
  | .push _ => true
  | _ => false

/-- save_data (lines 152-158): drop the oldest sample of the variable's
buffer, append the new one, log one info line.  A missing key is a
KeyError (none). -/
def save_data (values : Values) (idx : Nat) (data : ℚ) : Option (Values × Ev) :=
  match variablesList.get? idx with
  | none => none
  | some varName =>
    match values.lookup varName with
    | none => none
    | some buf =>
      match units.get? idx with
      | none => none
      | some unit =>
        some (dictSet values varName (buf.drop 1 ++ [data]), Ev.logInfo varName data unit)

/-- display_text together with the events it produces: the info log line
(line 135) and the frame push (line 148). -/
def display_text_events (W H top : ℚ) (values : Values) (varName : String) (data : ℚ)
    (unit : String) : Option (Values × List Ev) :=
  match display_text W H top values varName data unit with
  | none => none
  | some (v2, frame) => some (v2, [Ev.logInfo varName data unit, Ev.push frame])

/-- The light acquisition of lines 210-213 and 278-281: the lux sensor is
consulted only when proximity < 10, otherwise the constant 1 is used. -/
def light_select (proximity lux : ℚ) : ℚ := if proximity < 10 then lux else 1

/-- handle_light_mode (lines 208-214). -/
def handle_light_mode (W H top : ℚ) (values : Values) (proximity lux : ℚ) :
    Option (Values × List Ev) :=
  display_text_events W H top values "light" (light_select proximity lux) "Lux"

/-- Outcome of one pms5003.read(): the three particulate readings, or a
timeout (SerialTimeoutError / ReadTimeoutError). -/
inductive PmsResult
  | ok (pm1 pm25 pm10 : ℚ)
  | timeout
deriving DecidableEq

/-- handle_pm1_mode (lines 234-242): a timeout logs a warning and does
nothing else; a successful read records and renders pm1. -/
def handle_pm1_mode (W H top : ℚ) (values : Values) (pms : PmsResult) :
    Option (Values × List Ev) :=
  match pms with
  | .timeout => some (values, [Ev.logWarn])
  | .ok p1 _ _ => display_text_events W H top values "pm1" p1 "ug/m3"

/-- handle_pm25_mode (lines 244-252). -/
def handle_pm25_mode (W H top : ℚ) (values : Values) (pms : PmsResult) :
    Option (Values × List Ev) :=
  match pms with
  | .timeout => some (values, [Ev.logWarn])
  | .ok _ p25 _ => display_text_events W H top values "pm25" p25 "ug/m3"

/-- handle_pm10_mode (lines 254-262). -/
def handle_pm10_mode (W H top : ℚ) (values : Values) (pms : PmsResult) :
    Option (Values × List Ev) :=
  match pms with
  | .timeout => some (values, [Ev.logWarn])
  | .ok _ _ p10 => display_text_events W H top values "pm10" p10 "ug/m3"

/-- setup_state line 115: cpu_temps = [0.0] * 5. -/
def cpu_temps_init : List ℚ := List.replicate 5 0

/-- setup_state line 116: factor = 2.25. -/
def factor : ℚ := 9/4

/-- The data operation of the statement cpu_temps[1:] + [cpu_temp]
(lines 192 and 267): drop the oldest slot, append the new sample. -/
def smoother_observe (w : List ℚ) (x : ℚ) : List ℚ := w.drop 1 ++ [x]

/-- sum(cpu_temps) / float(len(cpu_temps)) (lines 193 and 268). -/
def smoother_avg (w : List ℚ) : ℚ := w.sum / (w.length : ℚ)

/-- raw_temp - ((avg_cpu_temp - raw_temp) / factor) after one smoothing
step (lines 192-195 and 267-270). -/
def compensated_temperature (w : List ℚ) (cpu_temp raw_temp : ℚ) : ℚ :=
  raw_temp - ((smoother_avg (smoother_observe w cpu_temp) - raw_temp) / factor)

/-- Feed a list of samples through the smoothing window, collecting the
average after each observation. -/
def smoother_feed (w : List ℚ) : List ℚ → List ℚ
  | [] => []
  | x :: xs => smoother_avg (smoother_observe w x) :: smoother_feed (smoother_observe w x) xs

/-- Python name resolution for a read inside a function body: a name that
is assigned anywhere in the body and not declared global is local for the
whole body, and reading it before its first assignment in an execution is
an UnboundLocalError (none); any other name is read from the module
globals. -/
def pyReadName (assigned declaredGlobal : List String)
    (locals globals : String → Option (List ℚ)) (n : String) : Option (List ℚ) :=
  if n ∈ assigned ∧ ¬ n ∈ declaredGlobal then locals n else globals n

/-- The names assigned in the body of handle_temperature_mode
(lines 188-196): unit, cpu_temp, cpu_temps, avg_cpu_temp, raw_temp, data. -/
def handle_temperature_mode_assigned : List String :=
  ["unit", "cpu_temp", "cpu_temps", "avg_cpu_temp", "raw_temp", "data"]

/-- handle_temperature_mode contains no global declaration. -/
def handle_temperature_mode_globals : List String := []

/-- The read of cpu_temps on the right-hand side of line 192.  At that
point no assignment to the local cpu_temps has executed, so the local slot
is unbound. -/
def handle_temperature_mode_cpu_temps_read (globals : String → Option (List ℚ)) :
    Option (List ℚ) :=
  pyReadName handle_temperature_mode_assigned handle_temperature_mode_globals
    (fun _ => none) globals "cpu_temps"

/-- The backlight controller state of main_loop (lines 306-309). -/
structure BLState where
  screen_on : Bool
  dimmed : Bool
  light_off_time : Option ℚ
  light_on_time : Option ℚ
deriving DecidableEq

/-- A backlight command issued to the display (st7735.set_backlight). -/
inductive BLCmd
  | setBacklight (level : ℚ)
deriving DecidableEq

/-- main_loop line 310: dim_delay = 2. -/
def dim_delay : ℚ := 2

/-- main_loop line 311: off_delay = 4. -/
def off_delay : ℚ := 4

/-- main_loop line 312: on_delay = 3. -/
def on_delay : ℚ := 3

/-- One backlight-controller step of main_loop (lines 322-349) at
wall-clock time now with ambient reading lux.  Arithmetic on an unset
(None) timestamp, impossible in reachable states, is a TypeError (none).
The returned list holds the backlight commands issued during the step. -/
def backlight_tick (lux now : ℚ) (s : BLState) : Option (BLState × List BLCmd) :=
  if lux ≤ 0 then
    if s.screen_on && !s.dimmed then
      match s.light_off_time with
      | none =>
        some ({ s with light_off_time := some now, light_on_time := none }, [])
      | some t0 =>
        if now - t0 > dim_delay then
          some ({ s with dimmed := true, light_on_time := none },
            [BLCmd.setBacklight (1/5)])
        else
          some ({ s with light_on_time := none }, [])
    else if s.dimmed then
      match s.light_off_time with
      | none => none
      | some t0 =>
        if now - t0 > dim_delay + off_delay then
          some ({ screen_on := false, dimmed := false,
                  light_off_time := none, light_on_time := none },
            [BLCmd.setBacklight 0])
        else
          some ({ s with light_on_time := none }, [])
    else
      some ({ s with light_on_time := none }, [])
  else
    if !s.screen_on then
      match s.light_on_time with
      | none => some ({ s with light_on_time := some now }, [])
      | some t1 =>
        if now - t1 > on_delay then
          some ({ s with screen_on := true, light_on_time := none },
            [BLCmd.setBacklight 1])
        else
          some (s, [])
    else if s.dimmed then
      some ({ s with dimmed := false, light_off_time := none }, [BLCmd.setBacklight 1])
    else
      some ({ s with light_off_time := none }, [])

/-- Run the backlight controller over a list of (lux, now) ticks,
collecting all issued commands in order. -/
def backlight_run : List (ℚ × ℚ) → BLState → Option (BLState × List BLCmd)
  | [], s => some (s, [])
  | (l, t) :: rest, s =>
    match backlight_tick l t s with
    | none => none
    | some (s2, cs) =>
      match backlight_run rest s2 with
      | none => none
      | some (s3, cs2) => some (s3, cs ++ cs2)

/-- The page-cycling state of main_loop: the mode counter and the time of
the last page advance. -/
structure PageState where
  mode : Nat
  last_page : ℚ
deriving DecidableEq

/-- setup_state line 113: delay = 0.5. -/
def page_delay : ℚ := 1/2

/-- The page-advance step of main_loop (lines 352-356): if proximity
exceeds 1500 and more than page_delay seconds passed since the last
advance, increment mode modulo len(variables) + 1 = 11 and stamp now. -/
def page_tick (prox now : ℚ) (s : PageState) : PageState :=
  if prox > 1500 ∧ now - s.last_page > page_delay then
    { mode := (s.mode + 1) % 11, last_page := now }
  else s

/-- Run the page controller over a list of (proximity, now) ticks. -/
def page_run (ticks : List (ℚ × ℚ)) (s : PageState) : PageState :=
  ticks.foldl (fun s2 p => page_tick p.1 p.2 s2) s

/-- The per-tick sensor inputs consumed by handle_display_everything_mode. -/
structure SensorInputs where
  cpu_temp : ℚ
  raw_temp : ℚ
  pressure : ℚ
  humidity : ℚ
  proximity : ℚ
  lux : ℚ
  ox : ℚ
  red : ℚ
  nh3 : ℚ
  pms : PmsResult
deriving DecidableEq

/-- The statements of handle_display_everything_mode from the right-hand
side of line 267 onward, parametrized by the value w that the read of
cpu_temps at line 267 would have produced.  Under Python scoping that
read always fails (see handle_display_everything_cpu_temps_read below),
so in the source this continuation is dead code; it is nevertheless
translated statement by statement: acquisitions, save_data calls and
display_everything calls in the source order, with the particulate block
logging a warning and skipping its saves and its render on a timeout. -/
def handle_display_everything_rest (W H xo yo : ℚ) (w : List ℚ) (values : Values)
    (inp : SensorInputs) : Option (List ℚ × Values × List Ev) :=
  let w2 := smoother_observe w inp.cpu_temp
  let data0 := compensated_temperature w inp.cpu_temp inp.raw_temp
  match save_data values 0 data0 with
  | none => none
  | some (v1, e1) =>
    match display_everything W H xo yo v1 with
    | none => none
    | some f1 =>
      match save_data v1 1 inp.pressure with
      | none => none
      | some (v2, e2) =>
        match display_everything W H xo yo v2 with
        | none => none
        | some f2 =>
          match save_data v2 2 inp.humidity with
          | none => none
          | some (v3, e3) =>
            let lightReads := if inp.proximity < 10 then [Ev.read "lux"] else []
            match save_data v3 3 (light_select inp.proximity inp.lux) with
            | none => none
            | some (v4, e4) =>
              match display_everything W H xo yo v4 with
              | none => none
              | some f3 =>
                match save_data v4 4 (inp.ox / 1000) with
                | none => none
                | some (v5, e5) =>
                  match save_data v5 5 (inp.red / 1000) with
                  | none => none
                  | some (v6, e6) =>
                    match save_data v6 6 (inp.nh3 / 1000) with
                    | none => none
                    | some (v7, e7) =>
                      match display_everything W H xo yo v7 with
                      | none => none
                      | some f4 =>
                        match inp.pms with
                        | .timeout =>
                          some (w2, v7,
                            [Ev.read "cpu_temperature", Ev.read "temperature",
                             e1, Ev.push f1, Ev.read "pressure", e2, Ev.push f2,
                             Ev.read "humidity", e3] ++ lightReads ++
                            [e4, Ev.push f3, Ev.read "gas", e5, e6, e7, Ev.push f4,
                             Ev.read "pms", Ev.logWarn])
                        | .ok a b c =>
                          match save_data v7 7 a with
                          | none => none
                          | some (v8, e8) =>
                            match save_data v8 8 b with
                            | none => none
                            | some (v9, e9) =>
                              match save_data v9 9 c with
                              | none => none
                              | some (v10, e10) =>
                                match display_everything W H xo yo v10 with
                                | none => none
                                | some f5 =>
                                  some (w2, v10,
                                    [Ev.read "cpu_temperature", Ev.read "temperature",
                                     e1, Ev.push f1, Ev.read "pressure", e2, Ev.push f2,
                                     Ev.read "humidity", e3] ++ lightReads ++
                                    [e4, Ev.push f3, Ev.read "gas", e5, e6, e7,
                                     Ev.push f4, Ev.read "pms", e8, e9, e10, Ev.push f5])

/-- The names assigned in the body of handle_display_everything_mode
(lines 264-298): cpu_temp, cpu_temps, avg_cpu_temp, raw_temp, raw_data,
gas_data, pms_data. -/
def handle_display_everything_mode_assigned : List String :=
  ["cpu_temp", "cpu_temps", "avg_cpu_temp", "raw_temp", "raw_data",
   "gas_data", "pms_data"]

/-- handle_display_everything_mode contains no global declaration. -/
def handle_display_everything_mode_globals : List String := []

/-- The read of cpu_temps on the right-hand side of line 267.  The name
is assigned in the function body with no global declaration, so the read
resolves to the local slot, which is unbound at that point. -/
def handle_display_everything_cpu_temps_read (globals : String → Option (List ℚ)) :
    Option (List ℚ) :=
  pyReadName handle_display_everything_mode_assigned
    handle_display_everything_mode_globals (fun _ => none) globals "cpu_temps"

/-- handle_display_everything_mode (lines 264-298), faithful to Python
scoping: after the single CPU-temperature acquisition of line 265, the
statement at line 267 reads the local cpu_temps before any assignment to
it, so under Python scoping every call fails with UnboundLocalError
(none) — before any buffer write, any log line, any render and before
the particulate read.  The continuation guarded behind that read is
handle_display_everything_rest. -/
def handle_display_everything_mode (W H xo yo : ℚ)
    (globals : String → Option (List ℚ)) (values : Values) (inp : SensorInputs) :
    Option (List ℚ × Values × List Ev) :=
  match handle_display_everything_cpu_temps_read globals with
  | none => none
  | some w => handle_display_everything_rest W H xo yo w values inp

/-- A values dict holding exactly the ten variables, in setup order. -/
def mkValues (b0 b1 b2 b3 b4 b5 b6 b7 b8 b9 : List ℚ) : Values :=
  [("temperature", b0), ("pressure", b1), ("humidity", b2), ("light", b3),
   ("oxidised", b4), ("reduced", b5), ("nh3", b6), ("pm1", b7), ("pm25", b8),
   ("pm10", b9)]

/-- Two successive display_text calls with the same input value: the dict
produced by the first call feeds the second; the two pushed frames are
returned. -/
def display_text_twice (W H top : ℚ) (values : Values) (varName : String) (data : ℚ)
    (unit : String) : Option (List DrawOp × List DrawOp) :=
  match display_text W H top values varName data unit with
  | none => none
  | some (v1, f1) =>
    match display_text W H top v1 varName data unit with
    | none => none
    | some (_, f2) => some (f1, f2)

/-- Two successive display_everything calls: the function does not write
the values dict, so the second call sees the same dict. -/
def display_everything_twice (W H xo yo : ℚ) (values : Values) :
    Option (List DrawOp × List DrawOp) :=
  match display_everything W H xo yo values with
  | none => none
  | some f1 =>
    match display_everything W H xo yo values with
    | none => none
    | some f2 => some (f1, f2)

/-- A concrete five-slot buffer for witnesses. -/
def demo_buf : List ℚ := [0, 0, 0, 0, 0]

/-- A concrete well-formed values dict for witnesses. -/
def demo_values : Values :=
  mkValues demo_buf demo_buf demo_buf demo_buf demo_buf demo_buf demo_buf
    demo_buf demo_buf demo_buf

/-- Concrete sensor inputs with a successful particulate read. -/
def demo_inputs : SensorInputs :=
  { cpu_temp := 50, raw_temp := 25, pressure := 1000, humidity := 40,
    proximity := 0, lux := 100, ox := 20000, red := 300000, nh3 := 100000,
    pms := PmsResult.ok 1 2 3 }

/-- Helper: a foldl of min from a start below the max-fold start stays below. -/
theorem foldl_min_le_foldl_max (xs : List ℚ) : ∀ a b : ℚ, a ≤ b →
    xs.foldl min a ≤ xs.foldl max b := by
  induction xs with
  | nil => intro a b h; simpa using h
  | cons x t ih =>
    intro a b h
    exact ih _ _ (le_trans (min_le_left a x) (h.trans (le_max_left b x)))

/-- Helper: folding min over a constant list leaves the start value. -/
theorem foldl_min_const (c : ℚ) (xs : List ℚ) (h : ∀ v ∈ xs, v = c) :
    xs.foldl min c = c := by
  induction xs with
  | nil => rfl
  | cons x t ih =>
    have hx : x = c := h x (List.mem_cons_self x t)
    rw [List.foldl_cons, hx, min_self]
    exact ih (fun v hv => h v (List.mem_cons_of_mem x hv))

/-- Helper: folding max over a constant list leaves the start value. -/
theorem foldl_max_const (c : ℚ) (xs : List ℚ) (h : ∀ v ∈ xs, v = c) :
    xs.foldl max c = c := by
  induction xs with
  | nil => rfl
  | cons x t ih =>
    have hx : x = c := h x (List.mem_cons_self x t)
    rw [List.foldl_cons, hx, max_self]
    exact ih (fun v hv => h v (List.mem_cons_of_mem x hv))

/-- Helper: a map whose values are all 1 is a replicate of ones. -/
theorem map_const_one (buf : List ℚ) (f : ℚ → ℚ) (h : ∀ v ∈ buf, f v = 1) :
    buf.map f = List.replicate buf.length (1 : ℚ) := by
  induction buf with
  | nil => rfl
  | cons x t ih =>
    rw [List.map_cons, h x (List.mem_cons_self x t),
      ih (fun v hv => h v (List.mem_cons_of_mem x hv))]
    rfl

/-- Helper: a nonempty list has a last element. -/
theorem getLast?_of_ne_nil (l : List ℚ) (h : l ≠ []) : ∃ z, l.getLast? = some z := by
  induction l with
  | nil => exact absurd rfl h
  | cons x t ih =>
    cases t with
    | nil => exact ⟨x, rfl⟩
    | cons y u =>
      obtain ⟨z, hz⟩ := ih (by simp)
      exact ⟨z, by rw [List.getLast?_cons_cons]; exact hz⟩

/-- C1: for an ascending four-element threshold list, the severity scan
used to colour a grid cell in display_everything returns exactly the
count of thresholds the value strictly exceeds, an index at most 4 into
the five-colour palette. -/
theorem classify_counts_exceeded (v t0 t1 t2 t3 : ℚ)
    (h01 : t0 ≤ t1) (h12 : t1 ≤ t2) (h23 : t2 ≤ t3) :
    classifyIdx v [t0, t1, t2, t3] =
      ([t0, t1, t2, t3].countP (fun t => decide (t < v))) ∧
    classifyIdx v [t0, t1, t2, t3] ≤ 4 := by
  unfold classifyIdx
  simp only [List.enum, List.enumFrom, List.foldl, List.countP_cons, List.countP_nil,
    decide_eq_true_eq]
  constructor
  · split_ifs <;> first | omega | (exfalso; linarith)
  · split_ifs <;> omega

/-- Witness for C1 at thresholds [4, 18, 28, 35]: value 20 classifies to
index 2, value 40 to index 4, value 2 to index 0. -/
theorem classify_counts_exceeded_witness :
    ((4 : ℚ) ≤ 18 ∧ (18 : ℚ) ≤ 28 ∧ (28 : ℚ) ≤ 35) ∧
    (classifyIdx 20 [4, 18, 28, 35] =
        (([4, 18, 28, 35] : List ℚ).countP (fun t => decide (t < 20))) ∧
      classifyIdx 20 [4, 18, 28, 35] ≤ 4) ∧
    classifyIdx 20 [4, 18, 28, 35] = 2 ∧
    classifyIdx 40 [4, 18, 28, 35] = 4 ∧
    classifyIdx 2 [4, 18, 28, 35] = 0 :=
  ⟨⟨by norm_num, by norm_num, by norm_num⟩,
    classify_counts_exceeded 20 4 18 28 35 (by norm_num) (by norm_num) (by norm_num),
    by decide, by decide, by decide⟩

/-- C2: in darkness (lux at or below zero) the backlight controller of
main_loop records the dark onset on the first dark tick without changing
state or issuing a command; from On with a recorded onset it dims (one
0.2-level command) exactly when the elapsed time strictly exceeds
dim_delay = 2; from Dimmed it turns off (one 0-level command, onset
cleared) exactly when the elapsed time since the same onset strictly
exceeds dim_delay + off_delay = 6; and over dark ticks at t = 0, 1, 3 the
controller dims at t = 3 and not before. -/
theorem backlight_dark_transitions (lux now t0 : ℚ) (lon : Option ℚ) (hlux : lux ≤ 0) :
    backlight_tick lux now ⟨true, false, none, lon⟩ =
      some (⟨true, false, some now, none⟩, []) ∧
    (now - t0 > dim_delay →
      backlight_tick lux now ⟨true, false, some t0, lon⟩ =
        some (⟨true, true, some t0, none⟩, [BLCmd.setBacklight (1/5)])) ∧
    (¬ now - t0 > dim_delay →
      backlight_tick lux now ⟨true, false, some t0, lon⟩ =
        some (⟨true, false, some t0, none⟩, [])) ∧
    (now - t0 > dim_delay + off_delay →
      backlight_tick lux now ⟨true, true, some t0, lon⟩ =
        some (⟨false, false, none, none⟩, [BLCmd.setBacklight 0])) ∧
    (¬ now - t0 > dim_delay + off_delay →
      backlight_tick lux now ⟨true, true, some t0, lon⟩ =
        some (⟨true, true, some t0, none⟩, [])) ∧
    backlight_run [(0, 0), (0, 1), (0, 3)] ⟨true, false, none, none⟩ =
      some (⟨true, true, some 0, none⟩, [BLCmd.setBacklight (1/5)]) := by
  refine ⟨by simp [backlight_tick, hlux], fun hd => ?_, fun hd => ?_, fun hd => ?_,
    fun hd => ?_, by norm_num [backlight_run, backlight_tick, dim_delay, off_delay]⟩ <;>
  simp [backlight_tick, hlux, hd]

/-- Witness for C2: at lux = 0, a tick at time 3 with onset 0 (elapsed 3,
strictly above dim_delay = 2) dims the backlight to level 0.2. -/
theorem backlight_dark_transitions_witness :
    ((0 : ℚ) ≤ 0) ∧ ((3 : ℚ) - 0 > dim_delay) ∧
    backlight_tick 0 3 ⟨true, false, some 0, none⟩ =
      some (⟨true, true, some 0, none⟩, [BLCmd.setBacklight (1/5)]) :=
  ⟨by norm_num, by norm_num [dim_delay],
    (backlight_dark_transitions 0 3 0 none (by norm_num)).2.1 (by norm_num [dim_delay])⟩

/-- C3: the page counter of main_loop advances by exactly one modulo 11
precisely when proximity exceeds 1500 and strictly more than
page_delay = 0.5 seconds passed since the last advance, is otherwise
unchanged, never leaves [0, 10], ignores every tick within page_delay of
an advance, and over twelve ticks of sustained proximity 2000 spaced 0.1
seconds apart it advances exactly twice, never on every tick. -/
theorem page_mode_advance (prox now : ℚ) (s : PageState) (hm : s.mode ≤ 10) :
    ((prox > 1500 ∧ now - s.last_page > page_delay) →
      page_tick prox now s = ⟨(s.mode + 1) % 11, now⟩) ∧
    (¬ (prox > 1500 ∧ now - s.last_page > page_delay) → page_tick prox now s = s) ∧
    (page_tick prox now s).mode ≤ 10 ∧
    (∀ prox2 now2, now2 - now ≤ page_delay →
      page_tick prox2 now2 ⟨(s.mode + 1) % 11, now⟩ = ⟨(s.mode + 1) % 11, now⟩) ∧
    page_run [(2000, 1/10), (2000, 2/10), (2000, 3/10), (2000, 4/10), (2000, 5/10),
        (2000, 6/10), (2000, 7/10), (2000, 8/10), (2000, 9/10), (2000, 1),
        (2000, 11/10), (2000, 12/10)] ⟨0, 0⟩ = ⟨2, 12/10⟩ := by
  refine ⟨fun h => ?_, fun h => ?_, ?_, fun prox2 now2 h => ?_,
    by norm_num [page_run, List.foldl, page_tick, page_delay]⟩
  · rw [page_tick, if_pos h]
  · rw [page_tick, if_neg h]
  · rw [page_tick]
    split_ifs
    · exact Nat.le_of_lt_succ (Nat.mod_lt _ (by omega))
    · exact hm
  · rw [page_tick, if_neg]
    rintro ⟨-, hb⟩
    simp only at hb
    linarith

/-- Witness for C3: from mode 0 with last advance at time 0, a tick at
time 1 with proximity 2000 advances the page to mode 1. -/
theorem page_mode_advance_witness :
    ((2000 : ℚ) > 1500 ∧ (1 : ℚ) - (0 : ℚ) > page_delay) ∧
    page_tick 2000 1 ⟨0, 0⟩ = ⟨1, 1⟩ := by
  have hc : (2000 : ℚ) > 1500 ∧ (1 : ℚ) - (0 : ℚ) > page_delay :=
    ⟨by norm_num, by norm_num [page_delay]⟩
  exact ⟨hc, (page_mode_advance 2000 1 ⟨0, 0⟩ (by norm_num)).1 hc⟩

/-- C4: the smoothing-window update of handle_temperature_mode.  The name
cpu_temps is assigned in the function body without a global declaration,
so under Python scoping the read on the right-hand side of line 192 hits
an unbound local and the handler raises UnboundLocalError on every call,
whatever the module globals hold (first conjunct).  The data operation
the statement denotes, applied to the shared zero-initialized window of
setup_state, would produce the averages K/5, 2K/5, 3K/5, 4K/5, K for five
consecutive observations of a constant K (second conjunct). -/
theorem cpu_temps_scoping_bug (globals : String → Option (List ℚ)) (K : ℚ) :
    handle_temperature_mode_cpu_temps_read globals = none ∧
    smoother_feed cpu_temps_init [K, K, K, K, K] =
      [K/5, 2*K/5, 3*K/5, 4*K/5, K] := by
  constructor
  · simp [handle_temperature_mode_cpu_temps_read, pyReadName,
      handle_temperature_mode_assigned, handle_temperature_mode_globals]
  · simp only [cpu_temps_init, smoother_feed, smoother_observe, smoother_avg,
      List.replicate, List.drop, List.append_eq, List.cons_append, List.nil_append,
      List.sum_cons, List.sum_nil, List.length_cons, List.length_nil]
    norm_num
    refine ⟨by ring, by ring, by ring, by ring⟩

/-- C5: the normalization of display_text maps each buffered value v to
(v - min + 1) / (max - min + 1); the denominator is at least 1, so the
degenerate all-equal buffer divides by 1 and yields the all-ones series. -/
theorem normalize_series_spec (buf : List ℚ) (hne : buf ≠ []) :
    ∃ m M, pyMin buf = some m ∧ pyMax buf = some M ∧ 1 ≤ M - m + 1 ∧
      normalize_series buf = some (buf.map (fun v => (v - m + 1) / (M - m + 1))) ∧
      ∀ c, (∀ v ∈ buf, v = c) →
        normalize_series buf = some (List.replicate buf.length (1 : ℚ)) := by
  match buf, hne with
  | x :: xs, _ =>
    refine ⟨xs.foldl min x, xs.foldl max x, rfl, rfl, ?_, rfl, ?_⟩
    · have := foldl_min_le_foldl_max xs x x le_rfl
      linarith
    · intro c hall
      have hx : x = c := hall x (List.mem_cons_self x xs)
      have hxs : ∀ v ∈ xs, v = c := fun v hv => hall v (List.mem_cons_of_mem x hv)
      have hmin : xs.foldl min x = c := by rw [hx]; exact foldl_min_const c xs hxs
      have hmax : xs.foldl max x = c := by rw [hx]; exact foldl_max_const c xs hxs
      show some ((x :: xs).map _) = _
      refine congrArg some ?_
      simp only [hmin, hmax]
      refine map_const_one (x :: xs) _ (fun v hv => ?_)
      rw [hall v hv]
      norm_num

/-- Witness for C5: the buffer [10, 10, 10, 10, 10] normalizes without
crashing to the all-ones series [1, 1, 1, 1, 1]. -/
theorem normalize_series_spec_witness :
    (([10, 10, 10, 10, 10] : List ℚ) ≠ []) ∧
    normalize_series [10, 10, 10, 10, 10] = some [1, 1, 1, 1, 1] := by
  constructor
  · simp
  · obtain ⟨m, M, h1, h2, h3, h4, h5⟩ :=
      normalize_series_spec [10, 10, 10, 10, 10] (by simp)
    have := h5 10 (by decide)
    simpa using this

/-- C6: setup_variables leaves the values dict empty, so the first record
or render operation of any handler fails with a KeyError instead of
succeeding on a pre-filled buffer: on setup_values, the lookup of every
variable is none and both display_text and save_data return none for
every variable and index. -/
theorem setup_values_empty_first_record_fails (W H top d : ℚ) (vn unit : String)
    (idx : Nat) :
    setup_values.lookup vn = none ∧
    display_text W H top setup_values vn d unit = none ∧
    save_data setup_values idx d = none := by
  refine ⟨rfl, rfl, ?_⟩
  unfold save_data
  cases variablesList.get? idx <;> simp [setup_values]

/-- C9 amended (part): display_everything never pushes two different
frames for two successive invocations on the same values dict — it does
not write the dict and composes the same frame twice. -/
theorem display_everything_twice_identical (W H xo yo : ℚ) (values : Values) :
    (display_everything_twice W H xo yo values).map (fun p => decide (p.1 = p.2))
      ≠ some false := by
  unfold display_everything_twice
  cases h : display_everything W H xo yo values <;> simp

/-- C10: whenever the light variable is sampled, a proximity of at least
10 forces the recorded and displayed value to the constant 1, and the lux
reading is used only when proximity is strictly below 10; the light page
handler and the all-variables handler both select the value this way
(light_select is the shared acquisition of lines 210-213 and 278-281). -/
theorem light_proximity_override (W H top : ℚ) (values : Values) (proximity lux : ℚ) :
    (10 ≤ proximity →
      light_select proximity lux = 1 ∧
      handle_light_mode W H top values proximity lux =
        display_text_events W H top values "light" 1 "Lux") ∧
    (proximity < 10 →
      light_select proximity lux = lux ∧
      handle_light_mode W H top values proximity lux =
        display_text_events W H top values "light" lux "Lux") := by
  constructor
  · intro h
    have hn : ¬ proximity < 10 := not_lt.mpr h
    constructor
    · simp [light_select, hn]
    · simp [handle_light_mode, light_select, hn]
  · intro h
    constructor
    · simp [light_select, h]
    · simp [handle_light_mode, light_select, h]

/-- Witness for C10 at the boundary: proximity exactly 10 forces the
light value to 1 even though the lux reading is 7. -/
theorem light_proximity_override_witness :
    (10 : ℚ) ≤ 10 ∧
    (light_select 10 7 = 1 ∧
      handle_light_mode 160 80 25 demo_values 10 7 =
        display_text_events 160 80 25 demo_values "light" 1 "Lux") :=
  ⟨le_refl 10, (light_proximity_override 160 80 25 demo_values 10 7).1 (le_refl 10)⟩

/-- C7: a particulate timeout is contained within the tick.  Each of the
three single-variable pm handlers, given a timed-out read, returns
normally (the exception is caught, so the loop continues) with the
values dict completely unchanged, exactly one warning logged, and no
frame push; and on the all-variables page no particulate timeout can
arise at all: handle_display_everything_mode fails at the line-267
unbound-local read on every call, before its particulate read, before
any buffer write and before any log or render, so the only particulate
reads the source can perform are those of the three pm handlers. -/
theorem pms_timeout_contained (W H top xo yo : ℚ) (values vals2 : Values)
    (globals : String → Option (List ℚ)) (inp : SensorInputs) :
    handle_pm1_mode W H top values PmsResult.timeout = some (values, [Ev.logWarn]) ∧
    handle_pm25_mode W H top values PmsResult.timeout = some (values, [Ev.logWarn]) ∧
    handle_pm10_mode W H top values PmsResult.timeout = some (values, [Ev.logWarn]) ∧
    handle_display_everything_mode W H xo yo globals vals2 inp = none := by
  refine ⟨rfl, rfl, rfl, ?_⟩
  simp [handle_display_everything_mode, handle_display_everything_cpu_temps_read,
    pyReadName, handle_display_everything_mode_assigned,
    handle_display_everything_mode_globals]

/-- C8: the all-variables handler, as written, never completes a pass.
The read of cpu_temps at line 267 resolves to an unbound local for every
global environment (first conjunct), so the handler raises
UnboundLocalError on every call, performing no acquisition beyond the
CPU temperature, no buffer write and no render (second conjunct).
Moreover, even the dead statement sequence guarded behind that read
contains only five display_everything calls per successful pass, not
six: the humidity group is recorded without a render of its own (third
conjunct, evaluated at concrete inputs with a successful particulate
read). -/
theorem display_everything_mode_crashes (W H xo yo : ℚ)
    (globals : String → Option (List ℚ)) (values : Values) (inp : SensorInputs) :
    handle_display_everything_cpu_temps_read globals = none ∧
    handle_display_everything_mode W H xo yo globals values inp = none ∧
    (handle_display_everything_rest 160 80 2 2 demo_buf demo_values demo_inputs).map
      (fun r => r.2.2.countP (fun e => isPush e)) = some 5 := by
  refine ⟨?_, ?_, ?_⟩
  · simp [handle_display_everything_cpu_temps_read, pyReadName,
      handle_display_everything_mode_assigned, handle_display_everything_mode_globals]
  · simp [handle_display_everything_mode, handle_display_everything_cpu_temps_read,
      pyReadName, handle_display_everything_mode_assigned,
      handle_display_everything_mode_globals]
  · simp [handle_display_everything_rest, save_data, mkValues, dictSet, List.lookup,
      display_everything, grid_cells, variablesList, units, limits, demo_values,
      demo_buf, demo_inputs, List.enum, List.enumFrom, light_select, List.getLast?,
      isPush, List.countP_cons, List.countP_nil]

/-- C9 counterexample: rendering the single-variable page twice in
succession with the same input value 10 starting from the buffer
[0, 0, 0, 0, 0] pushes two structurally different frames — the first call
mutates the history buffer, so the fourth column's colour and marker
differ between the two frames. -/
theorem display_text_twice_differs :
    display_text_twice 160 80 25 [("light", [0, 0, 0, 0, 0])] "light" 10 "Lux" =
      some
        ([DrawOp.rect 0 0 160 80 (255, 255, 255),
          DrawOp.rect 0 25 1 80 (0, 185, 255), DrawOp.rect 0 75 1 76 (0, 0, 0),
          DrawOp.rect 1 25 2 80 (0, 185, 255), DrawOp.rect 1 75 2 76 (0, 0, 0),
          DrawOp.rect 2 25 3 80 (0, 185, 255), DrawOp.rect 2 75 3 76 (0, 0, 0),
          DrawOp.rect 3 25 4 80 (0, 185, 255), DrawOp.rect 3 75 4 76 (0, 0, 0),
          DrawOp.rect 4 25 5 80 (255, 0, 0), DrawOp.rect 4 25 5 26 (0, 0, 0),
          DrawOp.text 0 0 ("light".take 4) 10 "Lux" (0, 0, 0)],
         [DrawOp.rect 0 0 160 80 (255, 255, 255),
          DrawOp.rect 0 25 1 80 (0, 185, 255), DrawOp.rect 0 75 1 76 (0, 0, 0),
          DrawOp.rect 1 25 2 80 (0, 185, 255), DrawOp.rect 1 75 2 76 (0, 0, 0),
          DrawOp.rect 2 25 3 80 (0, 185, 255), DrawOp.rect 2 75 3 76 (0, 0, 0),
          DrawOp.rect 3 25 4 80 (255, 0, 0), DrawOp.rect 3 25 4 26 (0, 0, 0),
          DrawOp.rect 4 25 5 80 (255, 0, 0), DrawOp.rect 4 25 5 26 (0, 0, 0),
          DrawOp.text 0 0 ("light".take 4) 10 "Lux" (0, 0, 0)]) ∧
    ([DrawOp.rect 0 0 160 80 (255, 255, 255),
      DrawOp.rect 0 25 1 80 (0, 185, 255), DrawOp.rect 0 75 1 76 (0, 0, 0),
      DrawOp.rect 1 25 2 80 (0, 185, 255), DrawOp.rect 1 75 2 76 (0, 0, 0),
      DrawOp.rect 2 25 3 80 (0, 185, 255), DrawOp.rect 2 75 3 76 (0, 0, 0),
      DrawOp.rect 3 25 4 80 (0, 185, 255), DrawOp.rect 3 75 4 76 (0, 0, 0),
      DrawOp.rect 4 25 5 80 (255, 0, 0), DrawOp.rect 4 25 5 26 (0, 0, 0),
      DrawOp.text 0 0 ("light".take 4) 10 "Lux" (0, 0, 0)] : List DrawOp) ≠
    [DrawOp.rect 0 0 160 80 (255, 255, 255),
      DrawOp.rect 0 25 1 80 (0, 185, 255), DrawOp.rect 0 75 1 76 (0, 0, 0),
      DrawOp.rect 1 25 2 80 (0, 185, 255), DrawOp.rect 1 75 2 76 (0, 0, 0),
      DrawOp.rect 2 25 3 80 (0, 185, 255), DrawOp.rect 2 75 3 76 (0, 0, 0),
      DrawOp.rect 3 25 4 80 (255, 0, 0), DrawOp.rect 3 25 4 26 (0, 0, 0),
      DrawOp.rect 4 25 5 80 (255, 0, 0), DrawOp.rect 4 25 5 26 (0, 0, 0),
      DrawOp.text 0 0 ("light".take 4) 10 "Lux" (0, 0, 0)] := by
  constructor
  · norm_num [display_text_twice, display_text, normalize_series, pyMin, pyMax,
      dictSet, List.lookup, hsv_to_rgb, pyTrunc, List.enum, List.enumFrom,
      List.flatMap, min_def, max_def]
  · decide
